import Mathlib

/-!
Verification of the service-worker caching core of the vapeagents-salla
theme (`src/assets/js/main.js`, service-worker section).

The embedding models:
* cache partitions as functions from URL strings to optional stored
  responses (`Partition`), matching the Cache Storage `match`/`put`
  overwrite semantics;
* a single request's network behaviour as `NetResult` (the `fetch`
  promise either resolves with a `Response` or rejects);
* each caching strategy as a function from the network behaviour and the
  partition state to a `StrategyOut` record holding the settled promise
  value (`StratResult`), the partition state after all writes, and
  observability flags (whether the network was used, whether a cache
  lookup happened, whether the returned value waited on the network).

A strategy's promise can settle three ways in the source: fulfilled with
a `Response`, fulfilled with `undefined` (e.g. a swallowed rejection),
or rejected; `StratResult` has one constructor for each.
-/

/-- An HTTP response as the service worker observes it: status, body and
content type. -/
structure Response where
  status : Nat
  body : String
  contentType : String
deriving DecidableEq, Repr

/-- `Response.ok` in the browser: status in the 2xx range. -/
def Response.ok (r : Response) : Bool :=
  200 ≤ r.status && r.status ≤ 299

/-- Outcome of one `fetch(request)` call: the promise resolves with a
response or rejects (network failure, timeout, DNS, ...). -/
inductive NetResult where
  | resolved (r : Response)
  | rejected
deriving DecidableEq, Repr

/-- One cache partition: URL → stored response.  `Cache.put` overwrites
the entry for the key; `Cache.match` reads it. -/
def Partition : Type := String → Option Response

/-- The empty partition (no entries). -/
def emptyPartition : Partition := fun _ => none

/-- `Cache.put`: store `v` under key `k`, overwriting any previous entry. -/
def putEntry (c : Partition) (k : String) (v : Response) : Partition :=
  fun u => if u = k then some v else c u

/-- How a strategy's returned promise settled: with a response, with
`undefined`, or rejected. -/
inductive StratResult where
  | ok (r : Response)
  | noResponse
  | err
deriving DecidableEq, Repr

/-- Result of running one strategy on one request. -/
structure StrategyOut where
  result : StratResult
  cache : Partition
  networkUsed : Bool
  cacheLookedUp : Bool
  waitedForNetwork : Bool

-- Cache names from the source (`STATIC_CACHE`, `DYNAMIC_CACHE`,
-- `IMAGE_CACHE`).

def STATIC_CACHE : String := "vaperelax-static-v1"

def DYNAMIC_CACHE : String := "vaperelax-dynamic-v1"

def IMAGE_CACHE : String := "vaperelax-images-v1"

/-- `STATIC_ASSETS`: the fixed install-time manifest. -/
def STATIC_ASSETS : List String :=
  ["/", "/assets/css/main.css", "/assets/js/main.js",
   "/assets/fonts/arabic-font.woff2", "/assets/images/logo.png",
   "/assets/images/placeholder-product.jpg", "/offline.html"]

/-- The per-class pattern lists of `CACHE_STRATEGIES` in the source. -/
structure CacheStrategies where
  static : List String
  networkFirst : List String
  cacheFirst : List String
  staleWhileRevalidate : List String

/-- `CACHE_STRATEGIES` from the source. -/
def CACHE_STRATEGIES : CacheStrategies where
  static := ["/assets/", "/fonts/"]
  networkFirst := ["/api/", "/search"]
  cacheFirst := ["/images/", ".jpg", ".jpeg", ".png", ".webp", ".svg"]
  staleWhileRevalidate := ["/products/", "/categories/", "/brands/"]

/-- Does `pat` occur as a contiguous sublist of the second argument? -/
def listIsSubstr (pat : List Char) : List Char → Bool
  | [] => pat.isEmpty
  | c :: rest => List.isPrefixOf pat (c :: rest) || listIsSubstr pat rest

/-- JavaScript `String.prototype.includes`: substring containment. -/
def strContains (s pat : String) : Bool :=
  listIsSubstr pat.data s.data

/-- JavaScript `String.prototype.endsWith`. -/
def strEndsWith (s pat : String) : Bool :=
  List.isSuffixOf pat.data s.data

/-- `isStaticAsset(pathname)` from the source. -/
def isStaticAsset (pathname : String) : Bool :=
  CACHE_STRATEGIES.static.any fun pattern => strContains pathname pattern

/-- `isImage(pathname)` from the source. -/
def isImage (pathname : String) : Bool :=
  CACHE_STRATEGIES.cacheFirst.any fun pattern =>
    strContains pathname pattern || strEndsWith pathname pattern

/-- `isApiCall(pathname)` from the source. -/
def isApiCall (pathname : String) : Bool :=
  CACHE_STRATEGIES.networkFirst.any fun pattern => strContains pathname pattern

/-- `isPage(pathname)` from the source. -/
def isPage (pathname : String) : Bool :=
  CACHE_STRATEGIES.staleWhileRevalidate.any fun pattern =>
    strContains pathname pattern

/-- The three strategies `handleRequest` can dispatch to. -/
inductive StrategyKind where
  | cacheFirstS
  | networkFirstS
  | staleWhileRevalidateS
deriving DecidableEq, Repr

/-- The routing decision of `handleRequest`: which strategy runs, and
against which cache partition, translated from the if-chain in the
source (static → cache-first/static, image → cache-first/image, api →
network-first/dynamic, page → stale-while-revalidate/dynamic, default →
network-first/dynamic). -/
def handleRequestRoute (pathname : String) : StrategyKind × String :=
  if isStaticAsset pathname then (.cacheFirstS, STATIC_CACHE)
  else if isImage pathname then (.cacheFirstS, IMAGE_CACHE)
  else if isApiCall pathname then (.networkFirstS, DYNAMIC_CACHE)
  else if isPage pathname then (.staleWhileRevalidateS, DYNAMIC_CACHE)
  else (.networkFirstS, DYNAMIC_CACHE)

/-- `cacheFirst(request, cacheName)` from the source: try the cache; on
a hit return the cached response with no network call; on a miss await
`fetch`, `put` the response iff `response.ok`, and return it; a fetch
rejection is re-thrown. -/
def cacheFirst (net : NetResult) (cache : Partition) (req : String) :
    StrategyOut :=
  match cache req with
  | some r =>
    { result := .ok r, cache := cache, networkUsed := false,
      cacheLookedUp := true, waitedForNetwork := false }
  | none =>
    match net with
    | .resolved r =>
      { result := .ok r,
        cache := if r.ok then putEntry cache req r else cache,
        networkUsed := true, cacheLookedUp := true,
        waitedForNetwork := true }
    | .rejected =>
      { result := .err, cache := cache, networkUsed := true,
        cacheLookedUp := true, waitedForNetwork := true }

/-- `networkFirst(request, cacheName)` from the source: await `fetch`;
if it resolves, `put` iff `response.ok` and return the response (2xx or
not) without consulting the cache; if it rejects, fall back to a cache
lookup, returning the hit or re-throwing the original error on a miss. -/
def networkFirst (net : NetResult) (cache : Partition) (req : String) :
    StrategyOut :=
  match net with
  | .resolved r =>
    { result := .ok r,
      cache := if r.ok then putEntry cache req r else cache,
      networkUsed := true, cacheLookedUp := false,
      waitedForNetwork := true }
  | .rejected =>
    match cache req with
    | some c =>
      { result := .ok c, cache := cache, networkUsed := true,
        cacheLookedUp := true, waitedForNetwork := true }
    | none =>
      { result := .err, cache := cache, networkUsed := true,
        cacheLookedUp := true, waitedForNetwork := true }

/-- `staleWhileRevalidate(request, cacheName)` from the source: look up
the cache, start `fetch` whose `then` handler `put`s iff `response.ok`
and whose `catch` handler swallows the rejection (resolving the chained
promise with `undefined`).  On a cache hit the cached response is
returned without awaiting the network; on a miss the chained network
promise is awaited, so a swallowed rejection yields `undefined`
(`StratResult.noResponse`), not a rejection. -/
def staleWhileRevalidate (net : NetResult) (cache : Partition)
    (req : String) : StrategyOut :=
  let cacheAfter : Partition :=
    match net with
    | .resolved r => if r.ok then putEntry cache req r else cache
    | .rejected => cache
  match cache req with
  | some c =>
    { result := .ok c, cache := cacheAfter, networkUsed := true,
      cacheLookedUp := true, waitedForNetwork := false }
  | none =>
    match net with
    | .resolved r =>
      { result := .ok r, cache := cacheAfter, networkUsed := true,
        cacheLookedUp := true, waitedForNetwork := true }
    | .rejected =>
      { result := .noResponse, cache := cacheAfter, networkUsed := true,
        cacheLookedUp := true, waitedForNetwork := true }

/-- A request as the fetch handler sees it: its pathname (also the cache
key) and its mode (`"navigate"` for full-page navigations). -/
structure Request where
  pathname : String
  mode : String
deriving DecidableEq, Repr

/-- The synthesized generic offline response built by `handleOffline`:
HTTP 503 with a JSON body. -/
def offlineJsonResponse : Response :=
  { status := 503,
    body := "\x7b\"error\":\"Offline\",\"message\":\"لا يوجد اتصال بالإنترنت\"\x7d",
    contentType := "application/json" }

/-- Result of `handleOffline`: the settled value and whether any network
request was issued (the source contains no `fetch`, so this is always
`false`). -/
structure OfflineOut where
  result : StratResult
  networkUsed : Bool

/-- `handleOffline(request)` from the source: for a navigation request
return `cache.match('/offline.html')` from the static partition (which
is `undefined` when absent); else for an image pathname return the
cached placeholder (again possibly `undefined`); else return the
synthesized 503 JSON response. -/
def handleOffline (staticCache : Partition) (req : Request) : OfflineOut :=
  if req.mode = "navigate" then
    { result :=
        match staticCache "/offline.html" with
        | some r => .ok r
        | none => .noResponse,
      networkUsed := false }
  else if isImage req.pathname then
    { result :=
        match staticCache "/assets/images/placeholder-product.jpg" with
        | some r => .ok r
        | none => .noResponse,
      networkUsed := false }
  else
    { result := .ok offlineJsonResponse, networkUsed := false }

/-- Dispatch one strategy kind, as `handleRequest` does. -/
def runStrategy (k : StrategyKind) (net : NetResult) (cache : Partition)
    (req : String) : StrategyOut :=
  match k with
  | .cacheFirstS => cacheFirst net cache req
  | .networkFirstS => networkFirst net cache req
  | .staleWhileRevalidateS => staleWhileRevalidate net cache req

/-- Result of the whole `handleRequest` pipeline: the settled value, the
cache storage after all writes (partition name → partition), and whether
the `catch` branch invoked `handleOffline`. -/
structure HandleOut where
  result : StratResult
  stores : String → Partition
  usedOffline : Bool

/-- `handleRequest(request)` from the source: route by pathname, run the
selected strategy against the selected partition, and, only when the
strategy's promise rejects, fall into the `catch` branch which returns
`await handleOffline(request)`.  A strategy that resolves — even with
`undefined` — bypasses `handleOffline`. -/
def handleRequest (net : NetResult) (stores : String → Partition)
    (req : Request) : HandleOut :=
  let route := handleRequestRoute req.pathname
  let out := runStrategy route.1 net (stores route.2) req.pathname
  let stores' : String → Partition :=
    fun n => if n = route.2 then out.cache else stores n
  match out.result with
  | .err =>
    { result := (handleOffline (stores' STATIC_CACHE) req).result,
      stores := stores', usedOffline := true }
  | r => { result := r, stores := stores', usedOffline := false }

-- Lifecycle.

/-- Does `fetch(u)` resolve with an ok (2xx) response under `net`? -/
def netRespondsOk (net : String → NetResult) (u : String) : Bool :=
  match net u with
  | .resolved r => r.ok
  | .rejected => false

/-- Store every manifest entry's fetched response (used on the all-ok
path of `cache.addAll`). -/
def addAllEntries (net : String → NetResult) (cache : Partition)
    (urls : List String) : Partition :=
  urls.foldl
    (fun c u =>
      match net u with
      | .resolved r => putEntry c u r
      | .rejected => c)
    cache

/-- Result of the install event handler: the static partition
afterwards, whether the promise passed to `event.waitUntil` resolved
(the browser treats the install as successful, and the version proceeds
toward activation, iff it does), and whether `self.skipWaiting()` was
called. -/
structure InstallOut where
  cache : Partition
  waitUntilResolved : Bool
  skipWaitingCalled : Bool

/-- The install event listener from the source:
`cache.addAll(STATIC_ASSETS)` (atomic: it rejects, storing nothing,
unless every manifest fetch resolves ok), then `self.skipWaiting()`,
with a final `.catch` that only logs — so the promise handed to
`event.waitUntil` resolves even when `addAll` failed. -/
def installHandler (net : String → NetResult) (cache : Partition) :
    InstallOut :=
  if STATIC_ASSETS.all (netRespondsOk net) then
    { cache := addAllEntries net cache STATIC_ASSETS,
      waitUntilResolved := true, skipWaitingCalled := true }
  else
    { cache := cache, waitUntilResolved := true,
      skipWaitingCalled := false }

/-- The Known Partition Set of this version. -/
def knownPartitionNames : List String :=
  [STATIC_CACHE, DYNAMIC_CACHE, IMAGE_CACHE]

/-- The activate event listener from the source: for every existing
cache name, delete it unless it is `STATIC_CACHE`, `DYNAMIC_CACHE` or
`IMAGE_CACHE`; this returns the partition names that remain. -/
def activateRemaining (names : List String) : List String :=
  names.filter fun n =>
    n = STATIC_CACHE ∨ n = DYNAMIC_CACHE ∨ n = IMAGE_CACHE

-- Retry queue.

/-- One record of the `failed-requests` store: auto-assigned id plus the
replayable request data (url standing in for url + options). -/
structure RetryEntry where
  id : Nat
  url : String
deriving DecidableEq, Repr

/-- The value `await store.getAll()` settles with.  Only `openDB()` is
promisified in the source; `IDBObjectStore.getAll()` returns a bare
`IDBRequest`, which is not a thenable, so the `await` fulfills with the
request object itself — never with the result array a promisified
wrapper would deliver. -/
inductive GetAllAwaited where
  | requestObject
  | resultList (entries : List RetryEntry)
deriving DecidableEq, Repr

/-- `await store.getAll()` in `doBackgroundSync`: the store contents do
not matter, because what the `await` yields is the bare request
object. -/
def getAllAwaited (_store : List RetryEntry) : GetAllAwaited :=
  .requestObject

/-- `for (const requestData of requests)`: iterating the awaited value.
An `IDBRequest` is not iterable, so the loop header throws a
`TypeError` (modelled as `Except.error`) before the first iteration;
an entry list would iterate normally. -/
def iterateEntries : GetAllAwaited → Except Unit (List RetryEntry)
  | .requestObject => .error ()
  | .resultList entries => .ok entries

/-- The body of the drain loop as written in the source, applied to an
iterated entry collection: for each entry, replay `fetch`; when the
replay's promise resolves the entry is deleted from the store by id,
when it rejects the entry is left in place, and neither case affects
the other entries.  `replayOk e` abstracts whether entry `e`'s replay
fetch resolves. -/
def drainLoop (replayOk : RetryEntry → Bool)
    (store entries : List RetryEntry) : List RetryEntry :=
  entries.foldl
    (fun st e =>
      if replayOk e then st.filter (fun x => x.id != e.id) else st)
    store

/-- Result of one `doBackgroundSync()` run: the store contents
afterwards, the entries whose replay fetch was issued, and whether the
outer `catch` logged an error. -/
structure SyncOut where
  queue : List RetryEntry
  replaysIssued : List RetryEntry
  errorLogged : Bool
deriving DecidableEq, Repr

/-- `doBackgroundSync()` from the source: open the DB, `await
store.getAll()` — which yields the bare `IDBRequest`, not the entries —
then `for...of` over that value, which throws `TypeError` before the
first iteration; the outer `catch` swallows the error and only logs.
The written drain loop would run only on the unreachable branch in
which the awaited value were the entry list. -/
def doBackgroundSync (replayOk : RetryEntry → Bool)
    (store : List RetryEntry) : SyncOut :=
  match iterateEntries (getAllAwaited store) with
  | .error _ =>
    { queue := store, replaysIssued := [], errorLogged := true }
  | .ok entries =>
    { queue := drainLoop replayOk store entries,
      replaysIssued := entries, errorLogged := false }

-- Control channel.

/-- The value `cacheUrls` would store for `url`: the fetched response
when the fetch resolves ok, nothing otherwise. -/
def storedVal (net : String → NetResult) (url : String) : Option Response :=
  match net url with
  | .resolved r => if r.ok then some r else none
  | .rejected => none

/-- `cacheUrls(urls)` from the source: for each url in order, `fetch`
it; when the fetch resolves ok, `put` it into the dynamic partition;
a rejection or non-ok response is logged and skipped, leaving the rest
of the batch to proceed. -/
def cacheUrls (net : String → NetResult) (urls : List String)
    (cache : Partition) : Partition :=
  urls.foldl
    (fun c url =>
      match net url with
      | .resolved r => if r.ok then putEntry c url r else c
      | .rejected => c)
    cache

/-- `clearCache(cacheName)` from the source: delete the named partition
from the set of existing partitions. -/
def clearCache (names : List String) (cacheName : String) : List String :=
  names.filter fun n => n ≠ cacheName

-- Spec-side definitions (formalizing the spec's words, for comparison
-- with the source-translated functions above).

/-- The resource classes named by the spec's classifier contract. -/
inductive ResourceClass where
  | staticAsset
  | image
  | apiCall
  | page
  | unclassified
deriving DecidableEq, Repr

/-- Does the class's pattern set match the path?  (`unclassified` has no
patterns.) -/
def classMatches (c : ResourceClass) (p : String) : Bool :=
  match c with
  | .staticAsset => isStaticAsset p
  | .image => isImage p
  | .apiCall => isApiCall p
  | .page => isPage p
  | .unclassified => false

/-- Spec-side classifier, following the spec's words: test the path
against the per-class pattern sets in the precedence static-asset,
image, api-call, page, return the first class whose pattern set
matches, and `unclassified` when none does. -/
def classifySpec (p : String) : ResourceClass :=
  match List.find? (fun c => classMatches c p)
      [ResourceClass.staticAsset, ResourceClass.image,
       ResourceClass.apiCall, ResourceClass.page] with
  | some c => c
  | none => .unclassified

/-- Spec-side strategy/partition selection table. -/
def strategyForClass : ResourceClass → StrategyKind × String
  | .staticAsset => (.cacheFirstS, STATIC_CACHE)
  | .image => (.cacheFirstS, IMAGE_CACHE)
  | .apiCall => (.networkFirstS, DYNAMIC_CACHE)
  | .page => (.staleWhileRevalidateS, DYNAMIC_CACHE)
  | .unclassified => (.networkFirstS, DYNAMIC_CACHE)

/-- The cache-first contract stated by the spec: a cache hit is returned
with no network call and no cache write; on a miss the network request
is issued, a copy is stored iff the response is 2xx, the network
response is returned, and a network failure is propagated (rejection). -/
def cacheFirstSpec (net : NetResult) (cache : Partition) (req : String)
    (out : StrategyOut) : Prop :=
  match cache req with
  | some r =>
    out.result = .ok r ∧ out.networkUsed = false ∧ out.cache = cache
  | none =>
    out.networkUsed = true ∧
    match net with
    | .resolved r =>
      out.result = .ok r ∧
      out.cache = (if r.ok then putEntry cache req r else cache)
    | .rejected => out.result = .err ∧ out.cache = cache

/-- The network-first contract stated by the spec: the network request
is issued first (and awaited); a 2xx response is stored and returned;
a rejection falls back to a cache lookup, returning the hit or
propagating the original failure on a miss. -/
def networkFirstSpec (net : NetResult) (cache : Partition) (req : String)
    (out : StrategyOut) : Prop :=
  out.networkUsed = true ∧ out.waitedForNetwork = true ∧
  match net with
  | .resolved r =>
    out.result = .ok r ∧
    out.cache = (if r.ok then putEntry cache req r else cache)
  | .rejected =>
    out.cacheLookedUp = true ∧ out.cache = cache ∧
    match cache req with
    | some c => out.result = .ok c
    | none => out.result = .err

/-- The stale-while-revalidate behaviour of the source, as amended: the
network request is always issued and its successful 2xx result only
updates the cache; a cache hit is returned without waiting for the
network; on a miss the strategy waits for the network and returns its
response, but a network rejection is swallowed by the background
`catch`, so the strategy resolves with no response instead of
propagating a failure. -/
def staleWhileRevalidateSpec (net : NetResult) (cache : Partition)
    (req : String) (out : StrategyOut) : Prop :=
  out.networkUsed = true ∧
  out.cache = (match net with
    | .resolved r => if r.ok then putEntry cache req r else cache
    | .rejected => cache) ∧
  match cache req with
  | some c => out.result = .ok c ∧ out.waitedForNetwork = false
  | none =>
    out.waitedForNetwork = true ∧
    match net with
    | .resolved r => out.result = .ok r
    | .rejected => out.result = .noResponse

/-- The offline resolver behaviour of the source, as amended: never any
network call, never a rejection; a navigation request gets whatever the
static partition holds for `/offline.html` (no response when absent);
otherwise an image-classified request gets whatever the static partition
holds for the placeholder image (no response when absent); otherwise the
synthesized 503 JSON response. -/
def handleOfflineSpec (staticCache : Partition) (req : Request)
    (out : OfflineOut) : Prop :=
  out.networkUsed = false ∧ out.result ≠ .err ∧
  out.result =
    (if req.mode = "navigate" then
      match staticCache "/offline.html" with
      | some r => .ok r
      | none => .noResponse
    else if isImage req.pathname then
      match staticCache "/assets/images/placeholder-product.jpg" with
      | some r => .ok r
      | none => .noResponse
    else .ok offlineJsonResponse)

/-- The install behaviour of the source, as amended: `addAll` is
all-or-nothing (entries stored and `skipWaiting` requested iff every
manifest fetch resolves 2xx), but the trailing `catch` means the
`waitUntil` promise resolves either way, so the install event never
fails. -/
def installSpec (net : String → NetResult) (cache : Partition)
    (out : InstallOut) : Prop :=
  out.waitUntilResolved = true ∧
  out.skipWaitingCalled = STATIC_ASSETS.all (netRespondsOk net) ∧
  out.cache =
    (if STATIC_ASSETS.all (netRespondsOk net) then
      addAllEntries net cache STATIC_ASSETS
    else cache)

-- Concrete inputs used by witnesses and counterexamples.

/-- The value `cache.addAll` stores for `url` when it reaches the store
step: whatever response the fetch resolved with. -/
def fetchedVal (net : String → NetResult) (url : String) :
    Option Response :=
  match net url with
  | .resolved r => some r
  | .rejected => none

/-- A concrete 2xx response. -/
def resp200 : Response := ⟨200, "ok-body", "text/plain"⟩

/-- A concrete non-2xx response. -/
def resp404 : Response := ⟨404, "not-found", "text/html"⟩

/-- A network on which every fetch resolves with `resp200`. -/
def netAll200 : String → NetResult := fun _ => .resolved resp200

/-- A network on which only the fetch of `/offline.html` fails. -/
def netOfflineFails : String → NetResult :=
  fun u => if u = "/offline.html" then .rejected else .resolved resp200

/-- A network on which only `/a` succeeds. -/
def netOnlyA : String → NetResult :=
  fun u => if u = "/a" then .resolved resp200 else .rejected

/-- A concrete three-entry retry queue. -/
def queue3 : List RetryEntry := [⟨1, "/a"⟩, ⟨2, "/b"⟩, ⟨3, "/c"⟩]

-- Theorems.

/-- Helper: whenever `handleRequestRoute` selects the network-first
strategy, the selected partition is the dynamic one. -/
lemma route_networkFirst_dynamic (p : String) :
    (handleRequestRoute p).1 = .networkFirstS →
    (handleRequestRoute p).2 = DYNAMIC_CACHE := by
  unfold handleRequestRoute
  cases h1 : isStaticAsset p <;> cases h2 : isImage p <;>
    cases h3 : isApiCall p <;> cases h4 : isPage p <;>
      simp [h1, h2, h3, h4]

/-- Helper: a strategy run on a resolving network never rejects. -/
lemma runStrategy_resolved_ne_err (k : StrategyKind) (r : Response)
    (cache : Partition) (req : String) :
    (runStrategy k (.resolved r) cache req).result ≠ .err := by
  cases k <;>
    unfold runStrategy cacheFirst networkFirst staleWhileRevalidate <;>
      cases hc : cache req <;> simp [hc]

/-- Claim C8: `handleRequest`'s routing equals the spec's table applied
to the spec's first-match classifier (precedence static-asset, image,
api-call, page, else unclassified), so classification is a pure, total,
deterministic function of the path and each class gets the claimed
strategy/partition pair. -/
theorem claim8_routing (p : String) :
    handleRequestRoute p = strategyForClass (classifySpec p) := by
  unfold handleRequestRoute classifySpec
  cases h1 : isStaticAsset p <;> cases h2 : isImage p <;>
    cases h3 : isApiCall p <;> cases h4 : isPage p <;>
      simp [List.find?, classMatches, h1, h2, h3, h4, strategyForClass]

/-- Claim C5 counterexample: starting from a partition set that lacks
the static partition, the partitions remaining after the activate pass
are not the Known Partition Set — the static partition is known but
absent afterwards. -/
theorem claim5_counterexample :
    activateRemaining [DYNAMIC_CACHE] = [DYNAMIC_CACHE] ∧
    STATIC_CACHE ∈ knownPartitionNames ∧
    STATIC_CACHE ∉ activateRemaining [DYNAMIC_CACHE] := by
  decide

/-- Claim C5 (amended): after an activate pass the remaining partitions
are exactly the existing ones that belong to the Known Partition Set —
every partition outside the set is deleted and none inside it is. -/
theorem claim5_amended (names : List String) (n : String) :
    n ∈ activateRemaining names ↔
      n ∈ names ∧ n ∈ knownPartitionNames := by
  simp [activateRemaining, knownPartitionNames, List.mem_filter]

/-- Claim C5 witness: a known partition that exists survives the pass. -/
theorem claim5_amended_witness :
    STATIC_CACHE ∈ activateRemaining [STATIC_CACHE, "old-v0"] :=
  (claim5_amended [STATIC_CACHE, "old-v0"] STATIC_CACHE).mpr
    ⟨by decide, by decide⟩

/-- Claim C6 counterexample: on a navigation request with an empty
static partition, `handleOffline` resolves with no response at all
(`cache.match('/offline.html')` is `undefined`), so it does not always
produce a response. -/
theorem claim6_counterexample :
    (handleOffline emptyPartition ⟨"/page", "navigate"⟩).result =
      .noResponse ∧
    emptyPartition "/offline.html" = none := by
  exact ⟨rfl, rfl⟩

/-- Claim C6 (amended): `handleOffline` never touches the network and
never rejects, and follows the claimed decision order, except that the
navigation and image branches return whatever the static partition
holds — which is no response at all when the entry is absent; only the
final branch unconditionally produces the synthesized 503 JSON
response. -/
theorem claim6_amended (sc : Partition) (req : Request) :
    handleOfflineSpec sc req (handleOffline sc req) := by
  unfold handleOfflineSpec handleOffline
  by_cases h : req.mode = "navigate"
  · cases hm : sc "/offline.html" <;> simp [h, hm]
  · by_cases h2 : isImage req.pathname
    · cases hm : sc "/assets/images/placeholder-product.jpg" <;>
        simp [h, h2, hm]
    · simp [h, h2]

/-- Claim C6 witness: concrete runs of the amended contract. -/
theorem claim6_amended_witness :
    handleOfflineSpec emptyPartition ⟨"/api/x", "cors"⟩
      (handleOffline emptyPartition ⟨"/api/x", "cors"⟩) :=
  claim6_amended emptyPartition ⟨"/api/x", "cors"⟩

/-- Claim C3 counterexample: with no cached entry and a failing network,
`staleWhileRevalidate` resolves with no response (`undefined`), because
the background `catch` swallowed the rejection — it does not propagate
a failure to the caller. -/
theorem claim3_counterexample :
    (staleWhileRevalidate .rejected emptyPartition "/products/1").result
      = .noResponse ∧
    StratResult.noResponse ≠ StratResult.err := by
  decide

/-- Claim C3 (amended): a cache hit is returned without waiting for the
concurrently issued network request, whose successful 2xx result only
updates the cache; on a miss the strategy waits for the network and
returns its response, but a network failure is swallowed and the
strategy resolves with no response instead of failing. -/
theorem claim3_amended (net : NetResult) (cache : Partition)
    (req : String) :
    staleWhileRevalidateSpec net cache req
      (staleWhileRevalidate net cache req) := by
  unfold staleWhileRevalidateSpec staleWhileRevalidate
  cases hc : cache req <;> cases net <;> simp [hc]

/-- Claim C3 witness: a concrete run of the amended contract. -/
theorem claim3_amended_witness :
    staleWhileRevalidateSpec (.resolved resp200) emptyPartition
      "/products/1"
      (staleWhileRevalidate (.resolved resp200) emptyPartition
        "/products/1") :=
  claim3_amended (.resolved resp200) emptyPartition "/products/1"

/-- Claim C2: network-first issues the network request first; a
response is returned and stored iff 2xx; a rejection falls back to the
cache, returning a hit or propagating the failure on a miss. -/
theorem claim2_networkFirst (net : NetResult) (cache : Partition)
    (req : String) :
    networkFirstSpec net cache req (networkFirst net cache req) := by
  unfold networkFirstSpec networkFirst
  cases net with
  | resolved r => simp
  | rejected => cases hc : cache req <;> simp [hc]

/-- Claim C2 witness: a concrete run of the network-first contract. -/
theorem claim2_networkFirst_witness :
    networkFirstSpec (.resolved resp200) emptyPartition "/api/x"
      (networkFirst (.resolved resp200) emptyPartition "/api/x") :=
  claim2_networkFirst (.resolved resp200) emptyPartition "/api/x"

/-- Claim C1: every path classified static-asset or image routes to
cache-first; cache-first serves a hit with no network call, on a miss
stores the network response iff 2xx and returns it, and propagates a
network failure; and after a first successful 2xx fetch a second
identical request is a hit served without any network call. -/
theorem claim1_cacheFirst (p : String) (net : NetResult)
    (cache : Partition) (h : (isStaticAsset p || isImage p) = true) :
    (handleRequestRoute p).1 = .cacheFirstS ∧
    cacheFirstSpec net cache p (cacheFirst net cache p) ∧
    (∀ r net2, r.ok = true → cache p = none →
      (cacheFirst net2 (cacheFirst (.resolved r) cache p).cache p).result
        = .ok r ∧
      (cacheFirst net2
        (cacheFirst (.resolved r) cache p).cache p).networkUsed
        = false) := by
  refine ⟨?_, ?_, ?_⟩
  · unfold handleRequestRoute
    cases h1 : isStaticAsset p
    · have h2 : isImage p = true := by simpa [h1] using h
      simp [h1, h2]
    · simp [h1]
  · unfold cacheFirstSpec cacheFirst
    cases hc : cache p <;> cases net <;> simp [hc]
  · intro r net2 hok hc
    unfold cacheFirst
    simp [hc, hok, putEntry]

/-- Claim C1 witness: `/assets/css/main.css` routes to cache-first and,
after one successful fetch, the second request is served with no
network use. -/
theorem claim1_cacheFirst_witness :
    (handleRequestRoute "/assets/css/main.css").1 = .cacheFirstS ∧
    (cacheFirst .rejected
      (cacheFirst (.resolved resp200) emptyPartition
        "/assets/css/main.css").cache
      "/assets/css/main.css").networkUsed = false :=
  ⟨(claim1_cacheFirst "/assets/css/main.css" (.resolved resp200)
      emptyPartition (by decide)).1,
   ((claim1_cacheFirst "/assets/css/main.css" (.resolved resp200)
      emptyPartition (by decide)).2.2 resp200 .rejected (by decide)
      rfl).2⟩

/-- Claim C10: a network response that resolves non-2xx is returned
as-is by network-first — not stored, with no cache lookup; a resolving
network never reaches the offline resolver; only an outright rejection
triggers the cache fallback, and on a cache miss the pipeline invokes
the offline resolver. -/
theorem claim10_networkFirst_nonOk (cache : Partition) (req : String)
    (r : Response) (stores : String → Partition) (rq : Request) :
    (r.ok = false →
      networkFirst (.resolved r) cache req =
        { result := .ok r, cache := cache, networkUsed := true,
          cacheLookedUp := false, waitedForNetwork := true }) ∧
    (networkFirst (.resolved r) cache req).cacheLookedUp = false ∧
    (handleRequest (.resolved r) stores rq).usedOffline = false ∧
    (cache req = none →
      (networkFirst .rejected cache req).result = .err) ∧
    ((handleRequestRoute rq.pathname).1 = .networkFirstS →
      stores DYNAMIC_CACHE rq.pathname = none →
      (handleRequest .rejected stores rq).usedOffline = true) := by
  refine ⟨?_, rfl, ?_, ?_, ?_⟩
  · intro hok
    unfold networkFirst
    simp [hok]
  · unfold handleRequest
    have h3 := runStrategy_resolved_ne_err
      (handleRequestRoute rq.pathname).1 r
      (stores (handleRequestRoute rq.pathname).2) rq.pathname
    cases ho : (runStrategy (handleRequestRoute rq.pathname).1
        (.resolved r) (stores (handleRequestRoute rq.pathname).2)
        rq.pathname).result
    case err => exact absurd ho h3
    all_goals simp [ho]
  · intro hmiss
    unfold networkFirst
    simp [hmiss]
  · intro hk hmiss
    unfold handleRequest
    have h2 := route_networkFirst_dynamic rq.pathname hk
    have hrun : (runStrategy (handleRequestRoute rq.pathname).1 .rejected
        (stores (handleRequestRoute rq.pathname).2) rq.pathname).result
        = .err := by
      rw [hk, h2]
      unfold runStrategy networkFirst
      simp [hmiss]
    simp [hrun]

/-- Helper: pointwise description of `cacheUrls` — key `u` holds the
(ok) value fetched for `u` when `u` is in the batch and its fetch
resolved 2xx, and is untouched otherwise. -/
lemma cacheUrls_apply (net : String → NetResult) (urls : List String)
    (c : Partition) (u : String) :
    cacheUrls net urls c u =
      (match storedVal net u with
       | some r => if u ∈ urls then some r else c u
       | none => c u) := by
  induction urls generalizing c with
  | nil =>
    cases hs : storedVal net u <;> simp [cacheUrls]
  | cons v rest ih =>
    have hcons : cacheUrls net (v :: rest) c =
        cacheUrls net rest
          (match net v with
           | .resolved r => if r.ok then putEntry c v r else c
           | .rejected => c) := rfl
    rw [hcons, ih]
    by_cases hv : u = v
    · subst hv
      cases hn : net u with
      | resolved r =>
        by_cases hok : r.ok <;>
          cases hm : decide (u ∈ rest) <;>
            simp_all [storedVal, putEntry, hn]
      | rejected =>
        simp [storedVal, hn]
    · cases hn : net v with
      | resolved r =>
        cases hs : storedVal net u <;>
          by_cases hok : r.ok <;>
            simp_all [putEntry, List.mem_cons, hv]
      | rejected =>
        cases hs : storedVal net u <;> simp [hs, List.mem_cons, hv]

/-- Helper: pointwise description of `addAllEntries`. -/
lemma addAllEntries_apply (net : String → NetResult) (urls : List String)
    (c : Partition) (u : String) :
    addAllEntries net c urls u =
      (match fetchedVal net u with
       | some r => if u ∈ urls then some r else c u
       | none => c u) := by
  induction urls generalizing c with
  | nil =>
    cases hs : fetchedVal net u <;> simp [addAllEntries]
  | cons v rest ih =>
    have hcons : addAllEntries net c (v :: rest) =
        addAllEntries net
          (match net v with
           | .resolved r => putEntry c v r
           | .rejected => c) rest := rfl
    rw [hcons, ih]
    by_cases hv : u = v
    · subst hv
      cases hn : net u with
      | resolved r =>
        cases hm : decide (u ∈ rest) <;>
          simp_all [fetchedVal, putEntry, hn]
      | rejected =>
        simp [fetchedVal, hn]
    · cases hn : net v with
      | resolved r =>
        cases hs : fetchedVal net u <;>
          simp_all [putEntry, List.mem_cons, hv]
      | rejected =>
        cases hs : fetchedVal net u <;> simp [hs, List.mem_cons, hv]

/-- Claim C4 counterexample: with a network on which the manifest entry
`/offline.html` fails to fetch, the promise handed to `event.waitUntil`
still resolves (the trailing `catch` only logs), so the install is not
considered failed and the new version still proceeds toward activation;
only `skipWaiting` is skipped. -/
theorem claim4_counterexample :
    netRespondsOk netOfflineFails "/offline.html" = false ∧
    "/offline.html" ∈ STATIC_ASSETS ∧
    (installHandler netOfflineFails emptyPartition).waitUntilResolved
      = true ∧
    (installHandler netOfflineFails emptyPartition).skipWaitingCalled
      = false := by
  decide

/-- Claim C4 (amended): pre-population is all-or-nothing — entries are
stored and `skipWaiting` requested iff every manifest fetch resolves
2xx, and on the all-ok path every manifest entry ends up cached — but
the caught error means the install event itself always completes
successfully, so a failed batch does not stop the version from
proceeding to activation. -/
theorem claim4_amended (net : String → NetResult) (cache : Partition) :
    installSpec net cache (installHandler net cache) ∧
    (STATIC_ASSETS.all (netRespondsOk net) = true →
      ∀ u ∈ STATIC_ASSETS, ∃ r,
        net u = .resolved r ∧ r.ok = true ∧
        (installHandler net cache).cache u = some r) := by
  constructor
  · unfold installSpec installHandler
    by_cases hall : STATIC_ASSETS.all (netRespondsOk net) <;>
      simp [hall]
  · intro hall u hu
    have hok : netRespondsOk net u = true :=
      List.all_eq_true.mp hall u hu
    cases hn : net u with
    | resolved r =>
      refine ⟨r, rfl, ?_, ?_⟩
      · unfold netRespondsOk at hok
        rw [hn] at hok
        exact hok
      · unfold installHandler
        simp only [hall, if_pos]
        rw [addAllEntries_apply]
        simp [fetchedVal, hn, hu]
    | rejected =>
      unfold netRespondsOk at hok
      rw [hn] at hok
      exact absurd hok (by simp)

/-- Claim C4 witness: on a network where every fetch resolves 2xx, the
amended install contract holds and `/offline.html` ends up cached. -/
theorem claim4_amended_witness :
    installSpec netAll200 emptyPartition
      (installHandler netAll200 emptyPartition) ∧
    (installHandler netAll200 emptyPartition).cache "/offline.html"
      = some resp200 := by
  refine ⟨(claim4_amended netAll200 emptyPartition).1, ?_⟩
  have h := (claim4_amended netAll200 emptyPartition).2 (by decide)
    "/offline.html" (by decide)
  obtain ⟨r, hr, _, hc⟩ := h
  have : r = resp200 := by
    have : NetResult.resolved resp200 = NetResult.resolved r := hr
    cases this
    rfl
  rw [this] at hc
  exact hc

/-- Claim C9: for a fixed network behaviour, replaying `cacheUrls` with
the same URL list is idempotent — the dynamic partition ends in the
same state as after a single run, each URL holding at most the last
fetched response — and one URL's failed fetch does not stop another
URL in the batch from being fetched and stored. -/
theorem claim9_cacheUrls (net : String → NetResult) (urls : List String)
    (c : Partition) :
    cacheUrls net urls (cacheUrls net urls c) = cacheUrls net urls c ∧
    (∀ u r, u ∈ urls → storedVal net u = some r →
      cacheUrls net urls c u = some r) := by
  constructor
  · funext u
    rw [cacheUrls_apply, cacheUrls_apply]
    cases hs : storedVal net u with
    | none => rfl
    | some r =>
      by_cases hm : u ∈ urls
      · simp [hm]
      · simp [hm]
  · intro u r hu hs
    rw [cacheUrls_apply]
    simp [hs, hu]

/-- Claim C9 witness: on a network where `/a` resolves 2xx and `/b`
fails, the batch `["/a", "/b"]` is idempotent and still stores `/a`. -/
theorem claim9_cacheUrls_witness :
    cacheUrls netOnlyA ["/a", "/b"]
        (cacheUrls netOnlyA ["/a", "/b"] emptyPartition)
      = cacheUrls netOnlyA ["/a", "/b"] emptyPartition ∧
    cacheUrls netOnlyA ["/a", "/b"] emptyPartition "/a" = some resp200 :=
  ⟨(claim9_cacheUrls netOnlyA ["/a", "/b"] emptyPartition).1,
   (claim9_cacheUrls netOnlyA ["/a", "/b"] emptyPartition).2 "/a"
     resp200 (by decide) (by decide)⟩

/-- Helper: the drain loop deletes from the store exactly the entries
whose id matches some successfully replayed snapshot entry. -/
lemma drain_foldl_filter (ok : RetryEntry → Bool)
    (snapshot : List RetryEntry) :
    ∀ store : List RetryEntry,
      snapshot.foldl
        (fun st e =>
          if ok e then st.filter (fun x => x.id != e.id) else st)
        store
      = store.filter
          (fun x => !(snapshot.any (fun e => ok e && x.id == e.id))) := by
  induction snapshot with
  | nil =>
    intro store
    simp
  | cons e es ih =>
    intro store
    show List.foldl _
        (if ok e then store.filter (fun x => x.id != e.id) else store) es
      = _
    rw [ih]
    by_cases hok : ok e = true
    · rw [if_pos hok, List.filter_filter]
      apply List.filter_congr
      intro x _
      cases hxe : x.id == e.id <;> simp [hok, hxe, bne]
    · rw [if_neg hok]
      apply List.filter_congr
      intro x _
      have hok' : ok e = false := by
        cases h : ok e
        · rfl
        · exact absurd h hok
      simp [hok']

/-- Helper: with pairwise-distinct ids, the written drain loop, run
over the store's own entries, keeps exactly the entries whose replay
failed. -/
lemma drainLoop_eq_filter (ok : RetryEntry → Bool)
    (q : List RetryEntry) (hids : (q.map RetryEntry.id).Nodup) :
    drainLoop ok q q = q.filter (fun e => !(ok e)) := by
  unfold drainLoop
  rw [drain_foldl_filter]
  apply List.filter_congr
  intro x hx
  have hinj := List.inj_on_of_nodup_map hids
  have hgoal : q.any (fun e => ok e && x.id == e.id) = ok x := by
    cases hox : ok x
    · apply List.any_eq_false.mpr
      intro e he hcontra
      have hand := Bool.and_eq_true_iff.mp hcontra
      have hid : x.id = e.id := by
        have := hand.2
        simpa using this
      have hxeq : x = e := hinj hx he hid
      rw [hxeq] at hox
      rw [hand.1] at hox
      exact absurd hox (by simp)
    · apply List.any_eq_true.mpr
      exact ⟨x, hx, by simp [hox]⟩
  rw [hgoal]

/-- Helper: a filter keeping only one distinguished element of a
duplicate-free list yields exactly that element. -/
lemma filter_singleton_of_unique (q : List RetryEntry)
    (ok : RetryEntry → Bool) (ek : RetryEntry) (hnd : q.Nodup)
    (hmem : ek ∈ q) (hek : ok ek = false)
    (hoth : ∀ e ∈ q, e ≠ ek → ok e = true) :
    q.filter (fun e => !(ok e)) = [ek] := by
  obtain ⟨s, t, rfl⟩ := List.append_of_mem hmem
  have hparts := List.nodup_append.mp hnd
  have heks : ek ∉ s := fun h => hparts.2.2 h (List.mem_cons_self ek t)
  have hekt : ek ∉ t := (List.nodup_cons.mp hparts.2.1).1
  have hs : s.filter (fun e => !(ok e)) = [] := by
    apply List.filter_eq_nil_iff.mpr
    intro a ha
    have hne : a ≠ ek := fun h => heks (h ▸ ha)
    have := hoth a (List.mem_append_left _ ha) hne
    simp [this]
  have ht : t.filter (fun e => !(ok e)) = [] := by
    apply List.filter_eq_nil_iff.mpr
    intro a ha
    have hne : a ≠ ek := fun h => hekt (h ▸ ha)
    have := hoth a (List.mem_append_right _ (List.mem_cons_of_mem _ ha))
      hne
    simp [this]
  rw [List.filter_append, hs, List.filter_cons, ht]
  simp [hek]

/-- Supporting result: the drain loop as written — were it ever reached
with the store's entries — replays each entry independently: all
replays succeeding empties the queue, and exactly one failing replay
leaves exactly that entry, for any queue with pairwise-distinct ids.
This is the behaviour the surrounding code and the spec intend. -/
lemma drainLoop_spec (ok : RetryEntry → Bool)
    (q : List RetryEntry) (hids : (q.map RetryEntry.id).Nodup) :
    ((∀ e ∈ q, ok e = true) → drainLoop ok q q = []) ∧
    (∀ ek ∈ q, ok ek = false → (∀ e ∈ q, e ≠ ek → ok e = true) →
      drainLoop ok q q = [ek]) := by
  have hq : q.Nodup := List.Nodup.of_map RetryEntry.id hids
  constructor
  · intro hall
    rw [drainLoop_eq_filter ok q hids]
    apply List.filter_eq_nil_iff.mpr
    intro a ha
    simp [hall a ha]
  · intro ek hmem hek hoth
    rw [drainLoop_eq_filter ok q hids]
    exact filter_singleton_of_unique q ok ek hq hmem hek hoth

/-- Claim C7 (code bug): evaluated at a concrete three-entry queue with
every replay fetch succeeding, `doBackgroundSync` issues no replay at
all, leaves the queue unchanged (and non-empty), and logs the swallowed
error — because `await store.getAll()` yields the bare non-thenable
`IDBRequest` and the `for...of` over it throws before any iteration.
By contrast the written loop body, run over those same entries, would
empty the queue as the claim states. -/
theorem claim7_code_bug_eval :
    doBackgroundSync (fun _ => true) queue3 =
      { queue := queue3, replaysIssued := [], errorLogged := true } ∧
    queue3 ≠ [] ∧
    drainLoop (fun _ => true) queue3 queue3 = [] := by
  decide

/-- Claim C10 witness: a concrete 404 response is returned as-is by
network-first with no cache write or lookup, and the rejected-network,
empty-cache pipeline for `/api/x` reaches the offline resolver. -/
theorem claim10_networkFirst_nonOk_witness :
    networkFirst (.resolved resp404) emptyPartition "/api/x" =
      { result := .ok resp404, cache := emptyPartition,
        networkUsed := true, cacheLookedUp := false,
        waitedForNetwork := true } ∧
    (networkFirst .rejected emptyPartition "/api/x").result = .err ∧
    (handleRequest .rejected (fun _ => emptyPartition)
      ⟨"/api/x", "cors"⟩).usedOffline = true :=
  ⟨(claim10_networkFirst_nonOk emptyPartition "/api/x" resp404
      (fun _ => emptyPartition) ⟨"/api/x", "cors"⟩).1 (by decide),
   (claim10_networkFirst_nonOk emptyPartition "/api/x" resp404
      (fun _ => emptyPartition) ⟨"/api/x", "cors"⟩).2.2.2.1 rfl,
   (claim10_networkFirst_nonOk emptyPartition "/api/x" resp404
      (fun _ => emptyPartition) ⟨"/api/x", "cors"⟩).2.2.2.2 (by decide)
      rfl⟩
